import Mathlib

/-!
Shallow embedding of src/index.ts (odradev/sr_id): a Casper transaction
submission example.  The script encodes a 32-byte correlation tag (sr_id),
builds a native transfer and a CEP-18 contract call carrying it, signs and
broadcasts them, waits for confirmation, checks success and extracts the
sr_id argument back out of the confirmed transaction.
-/

/-- Typed argument values (the CLValue variants the script constructs:
newCLByteArray, newCLPublicKey, newCLUInt512, newCLUInt256, newCLKey). -/
inductive CLValue where
  | byteArray (bytes : List Nat)
  | publicKey (hex : String)
  | uint512 (amount : String)
  | uint256 (amount : Nat)
  | key (keyRef : String)
deriving DecidableEq

/-- A runtime-argument list: named CLValues in insertion order
(Args.fromMap / Args.insert in the source). -/
abbrev Args : Type := List (String × CLValue)

/-- JavaScript ToUint8, applied by Uint8Array.from to each element:
an integer is reduced modulo 256 into 0..255. -/
def toUint8 (v : Int) : Nat := (v % 256).toNat

/-- new_sr_id from src/index.ts lines 17-21: an array of 32 zeros, index 0
set to the input, converted to a Uint8Array (each entry wrapped by ToUint8)
and wrapped as a byte-array CLValue. -/
def new_sr_id (value : Int) : CLValue :=
  CLValue.byteArray (((List.replicate 32 (0 : Int)).set 0 value).map toUint8)

/-- Args.getByName: linear first-match lookup of an argument by its name. -/
def getByName (args : Args) (name : String) : Option CLValue :=
  (args.find? (fun p => p.1 == name)).map Prod.snd

/-- Lowercase hexadecimal digit for a value below 16. -/
def hexDigit (n : Nat) : Char :=
  if n < 10 then Char.ofNat (48 + n) else Char.ofNat (87 + n)

/-- Two-digit lowercase hexadecimal rendering of one byte. -/
def byteToHex (b : Nat) : String :=
  String.mk [hexDigit (b / 16 % 16), hexDigit (b % 16)]

/-- Rendered form of a byte array, as CLValueByteArray.toString produces it:
the concatenation of the two-digit hex renderings of its bytes. -/
def renderBytes (bs : List Nat) : String :=
  String.join (bs.map byteToHex)

/-- How extract_sr_id can fail: the explicit throw when no argument named
sr_id exists, and the runtime crash of the unguarded non-null assertion
arg.byteArray!.toString() when the argument is not a byte array. -/
inductive ExtractError where
  | argumentNotFound
  | typeError
deriving DecidableEq

/-- extract_sr_id from src/index.ts lines 24-31: look up the argument named
sr_id; throw if absent; otherwise render its byteArray field.  The source
reads arg.byteArray! without checking the kind, so a present argument of any
other kind reaches the unguarded access (modelled as typeError). -/
def extract_sr_id (args : Args) : Except ExtractError String :=
  match getByName args "sr_id" with
  | none => Except.error ExtractError.argumentNotFound
  | some (CLValue.byteArray bs) => Except.ok (renderBytes bs)
  | some _ => Except.error ExtractError.typeError

/-- Remote transaction status as the spec's data model enumerates it. -/
inductive Status where
  | Pending
  | Executed
  | Failed
deriving DecidableEq

/-- The execution result attached to a confirmed transaction; errorMessage
is absent on clean execution. -/
structure ExecutionResult where
  errorMessage : Option String
deriving DecidableEq

/-- Execution information of a transaction record; the source reaches it
through the optional chain transactionResult.executionInfo?. -/
structure ExecutionInfo where
  executionResult : ExecutionResult
deriving DecidableEq

/-- The remote-observed state of a submitted transaction. -/
structure TransactionRecord where
  status : Status
  executionInfo : Option ExecutionInfo
  args : Args
deriving DecidableEq

/-- The success check of src/index.ts lines 90 and 142:
transactionResult.executionInfo?.executionResult.errorMessage == undefined.
When executionInfo is absent the optional chain yields undefined, which
compares equal to undefined, so the check reports success. -/
def is_success (r : TransactionRecord) : Bool :=
  match r.executionInfo with
  | none => true
  | some info =>
    match info.executionResult.errorMessage with
    | none => true
    | some _ => false

/-- Lines 91-93 and 143-145: when the check fails, both submission
functions throw the fixed message; the record is otherwise accepted. -/
def send_success_check (r : TransactionRecord) : Except String Unit :=
  if is_success r then Except.ok () else Except.error "Transaction was not successful"

/-- Pricing mode built in build_native_transfer (PaymentLimitedMode). -/
structure PricingMode where
  standardPayment : Bool
  paymentAmount : Nat
  gasPriceTolerance : Nat
deriving DecidableEq

/-- The unsigned native-transfer payload assembled by build_native_transfer
(the wall-clock timestamp, an I/O effect, is not modelled). -/
structure NativeTransferPayload where
  initiator : String
  ttlMs : Nat
  chainName : String
  pricing : PricingMode
  args : Args
  entryPoint : String
deriving DecidableEq

/-- build_native_transfer from src/index.ts lines 36-73: fixed pricing,
the three runtime arguments target, amount and sr_id inserted in order, TTL
1800000 ms, chain casper-test, entry point Transfer. -/
def build_native_transfer (publicKey recipient : String)
    (amount : String) (sr_id : CLValue) : NativeTransferPayload :=
  { initiator := publicKey
    ttlMs := 1800000
    chainName := "casper-test"
    pricing := { standardPayment := true, paymentAmount := 100000000, gasPriceTolerance := 1 }
    args := [("target", CLValue.publicKey recipient),
             ("amount", CLValue.uint512 amount),
             ("sr_id", sr_id)]
    entryPoint := "Transfer" }

/-- The fixed recipient hex of send_native_transfer (line 79). -/
def native_recipient_hex : String :=
  "0202f5a92ab6da536e7b1a351406f3744224bec85d7acbab1497b65de48a1a707b64"

/-- The payload send_native_transfer builds (lines 77-82): the fixed
recipient and the amount 4200000000, around the given sr_id. -/
def send_native_transfer_payload (publicKey : String) (sr_id : CLValue) :
    NativeTransferPayload :=
  build_native_transfer publicKey native_recipient_hex "4200000000" sr_id

/-- The fixed recipient key of the CEP-18 call (lines 124-129). -/
def cep18_recipient_key : String :=
  "account-hash-040fe59024a78372bc1225cfd5ed258eacdbbc7c5d09d35767777dc10c5d14ca"

/-- The runtime-argument list of send_cep18_transfer (lines 122-133):
recipient, amount 1000 and sr_id, in the object's insertion order. -/
def build_cep18_transfer_args (sr_id : CLValue) : Args :=
  [("recipient", CLValue.key cep18_recipient_key),
   ("amount", CLValue.uint256 1000),
   ("sr_id", sr_id)]

/-- The catch(console.error) wrapper main applies to each example
(lines 166-167): a failure is converted into a successful completion and
its message appended to the console log. -/
def catch_and_log (r : Except String Unit) : Except String Unit × List String :=
  match r with
  | Except.ok _ => (Except.ok (), [])
  | Except.error e => (Except.ok (), [e])

/-- main from src/index.ts lines 165-168, given the outcomes of the two
examples: each is run under catch(console.error); main returns the combined
outcome its caller observes, next to everything logged. -/
def main_model (r1 r2 : Except String Unit) : Except String Unit × List String :=
  let o1 := catch_and_log r1
  let o2 := catch_and_log r2
  (match o1.1, o2.1 with
   | Except.ok _, Except.ok _ => Except.ok ()
   | Except.error e, _ => Except.error e
   | _, Except.error e => Except.error e,
   o1.2 ++ o2.2)

/-- Modelled from the spec: the Argument Codec of section 4.1 demands that
encoding a value out of range for the declared width (a byte, for the tag
feeding the 32-byte correlation array) fail with EncodingError; the source
has no such check, so this definition follows the spec's words, for
comparison with new_sr_id. -/
def new_sr_id_specModel (value : Int) : Except String CLValue :=
  if 0 ≤ value ∧ value ≤ 255 then Except.ok (new_sr_id value)
  else Except.error "EncodingError"

/-! ## Helper lemmas -/

/-- The byte list new_sr_id produces: the wrapped input followed by 31 zeros. -/
theorem new_sr_id_bytes (value : Int) :
    new_sr_id value = CLValue.byteArray (toUint8 value :: List.replicate 31 0) := by
  have h32 : List.replicate 32 (0 : Int) = 0 :: List.replicate 31 0 := rfl
  simp only [new_sr_id, h32, List.set_cons_zero, List.map_cons, List.map_replicate]
  have h0 : toUint8 0 = 0 := rfl
  rw [h0]

/-- Wrapping does nothing on a value already in byte range. -/
theorem toUint8_of_lt (v : Nat) (h : v < 256) : toUint8 (v : Int) = v := by
  unfold toUint8
  rw [Int.emod_eq_of_lt (by positivity) (by exact_mod_cast h)]
  exact Int.toNat_natCast v

/-- getByName on a nonempty list: the head when its name matches, the
lookup on the tail otherwise. -/
theorem getByName_cons (p : String × CLValue) (rest : Args) (name : String) :
    getByName (p :: rest) name =
      if p.1 == name then some p.2 else getByName rest name := by
  unfold getByName
  rw [List.find?_cons]
  cases h : (p.1 == name) <;> simp [h]

/-- getByName finds nothing exactly when no entry bears the name. -/
theorem getByName_eq_none (args : Args) (name : String) :
    getByName args name = none ↔ ∀ p ∈ args, p.1 ≠ name := by
  unfold getByName
  rw [Option.map_eq_none', List.find?_eq_none]
  constructor
  · intro h p hp
    have := h p hp
    simpa using this
  · intro h p hp
    simpa using h p hp

/-- A value getByName returns is the value of an entry bearing the name. -/
theorem getByName_eq_some (args : Args) (name : String) (v : CLValue)
    (h : getByName args name = some v) : (name, v) ∈ args := by
  unfold getByName at h
  rw [Option.map_eq_some'] at h
  obtain ⟨p, hfind, hsnd⟩ := h
  have hmem : p ∈ args := List.mem_of_find?_eq_some hfind
  have hp := List.find?_some hfind
  have hname : p.1 = name := by simpa using hp
  have : p = (name, v) := by
    cases p
    simp_all
  rwa [this] at hmem

/-- Extraction from the native-transfer argument list reaches the sr_id
entry behind target and amount. -/
theorem extract_native (pk rcpt amt : String) (bs : List Nat) :
    extract_sr_id (build_native_transfer pk rcpt amt (CLValue.byteArray bs)).args =
      Except.ok (renderBytes bs) := rfl

/-- Extraction from the CEP-18 argument list reaches the sr_id entry behind
recipient and amount. -/
theorem extract_cep18 (bs : List Nat) :
    extract_sr_id (build_cep18_transfer_args (CLValue.byteArray bs)) =
      Except.ok (renderBytes bs) := rfl

/-! ## Concrete records used by counterexamples and witnesses -/

/-- A record the submission functions can receive: execution information
missing entirely, status still Pending. -/
def missing_info_record : TransactionRecord :=
  { status := Status.Pending, executionInfo := none, args := [] }

/-- An Executed record carrying an application-level error message. -/
def boom_record : TransactionRecord :=
  { status := Status.Executed
    executionInfo := some { executionResult := { errorMessage := some "boom" } }
    args := [] }

/-- The optional byte width of an argument entry: the length of its byte
array when it is one. -/
def byteWidth (p : String × CLValue) : Option Nat :=
  match p.2 with
  | CLValue.byteArray bs => some bs.length
  | _ => none

/-! ## Claims -/

/-- C1: the claim states success iff status Executed and errorMessage
absent; the code's check reads only the optional errorMessage chain, so a
record with execution information missing and status Pending is classified
successful, refuting the claim at that concrete record. -/
theorem C1_counterexample :
    is_success missing_info_record = true ∧
    missing_info_record.status ≠ Status.Executed ∧
    missing_info_record.executionInfo = none :=
  ⟨rfl, by decide, rfl⟩

/-- C1 (amended): the check of lines 90 and 142 classifies a record as
successful exactly when the errorMessage reached through the optional
executionInfo chain is absent — including when executionInfo itself is
missing; the record's status is never consulted. -/
theorem C1_success_classification (r : TransactionRecord) :
    is_success r = true ↔
      (r.executionInfo = none ∨
        ∃ i, r.executionInfo = some i ∧ i.executionResult.errorMessage = none) := by
  obtain ⟨st, info, args⟩ := r
  cases info with
  | none => simp [is_success]
  | some i =>
    cases h : i.executionResult.errorMessage <;> simp [is_success, h]

/-- C2: the claim states the raised failure contains the record's
errorMessage verbatim; at a record whose errorMessage is the string boom,
the code raises the fixed message, which does not contain boom. -/
theorem C2_counterexample :
    send_success_check boom_record = Except.error "Transaction was not successful" ∧
    boom_record.executionInfo =
      some { executionResult := { errorMessage := some "boom" } } ∧
    ¬ ("boom".toList <:+: "Transaction was not successful".toList) :=
  ⟨rfl, rfl, by decide⟩

/-- C2 (amended): whenever the confirmed record carries a non-absent
errorMessage, both submission functions raise a failure, but always with
the fixed text of lines 92 and 144; the record's errorMessage is dropped. -/
theorem C2_failure_message (r : TransactionRecord) (i : ExecutionInfo) (msg : String)
    (h1 : r.executionInfo = some i)
    (h2 : i.executionResult.errorMessage = some msg) :
    send_success_check r = Except.error "Transaction was not successful" := by
  simp [send_success_check, is_success, h1, h2]

/-- C2 witness: the amended statement discharged at the boom record. -/
theorem C2_failure_message_witness :
    send_success_check boom_record = Except.error "Transaction was not successful" :=
  C2_failure_message boom_record
    { executionResult := { errorMessage := some "boom" } } "boom" rfl rfl

/-- C3: encoding a supported tag value with new_sr_id and decoding the
argument named sr_id with extract_sr_id from either assembled argument list
returns the rendered form of the original 32-byte array. -/
theorem C3_roundtrip (v : Nat) (hv : v < 256) (pk rcpt amt : String) :
    extract_sr_id (build_native_transfer pk rcpt amt (new_sr_id v)).args =
      Except.ok (renderBytes (v :: List.replicate 31 0)) ∧
    extract_sr_id (build_cep18_transfer_args (new_sr_id v)) =
      Except.ok (renderBytes (v :: List.replicate 31 0)) := by
  have hb : new_sr_id (v : Int) = CLValue.byteArray (v :: List.replicate 31 0) := by
    rw [new_sr_id_bytes, toUint8_of_lt v hv]
  rw [hb]
  exact ⟨extract_native pk rcpt amt _, extract_cep18 _⟩

/-- C3 witness: the round trip at tag value 15 and the fixed native
transfer parameters. -/
theorem C3_roundtrip_witness :
    extract_sr_id
        (build_native_transfer "pk" native_recipient_hex "4200000000" (new_sr_id 15)).args =
      Except.ok (renderBytes (15 :: List.replicate 31 0)) ∧
    extract_sr_id (build_cep18_transfer_args (new_sr_id 15)) =
      Except.ok (renderBytes (15 :: List.replicate 31 0)) :=
  C3_roundtrip 15 (by decide) "pk" native_recipient_hex "4200000000"

/-- C4: the claim states out-of-range inputs fail with EncodingError; the
spec-modelled encoder rejects 256, but new_sr_id as written produces a
byte-array argument with the value wrapped to 0 — no failure occurs. -/
theorem C4_counterexample :
    new_sr_id_specModel 256 = Except.error "EncodingError" ∧
    new_sr_id 256 = CLValue.byteArray (0 :: List.replicate 31 0) := by
  refine ⟨rfl, ?_⟩
  rw [new_sr_id_bytes]
  decide

/-- C4 (amended): an out-of-range input is not rejected: new_sr_id still
produces a 32-byte byte-array argument whose first byte is the input
wrapped modulo 256. -/
theorem C4_out_of_range_wraps (v : Int) (h : v < 0 ∨ 255 < v) :
    ∃ bs, new_sr_id v = CLValue.byteArray bs ∧ bs.length = 32 ∧
      bs.head? = some ((v % 256).toNat) :=
  ⟨toUint8 v :: List.replicate 31 0, new_sr_id_bytes v, by simp, rfl⟩

/-- C4 witness: the amended statement discharged at the out-of-range
input 256. -/
theorem C4_out_of_range_wraps_witness :
    ∃ bs, new_sr_id 256 = CLValue.byteArray bs ∧ bs.length = 32 ∧
      bs.head? = some (((256 : Int) % 256).toNat) :=
  C4_out_of_range_wraps 256 (Or.inr (by decide))

/-- C5: lookup by name is exact-match on the full name string (hence
case-sensitive), finds nothing exactly when no argument bears the name,
returns the raw typed value of an entry bearing the name when one does,
and extract_sr_id raises its not-found error exactly in the former case. -/
theorem C5_lookup (args : Args) (name : String) :
    (getByName args name = none ↔ ∀ p ∈ args, p.1 ≠ name) ∧
    (∀ v, getByName args name = some v → (name, v) ∈ args) ∧
    (extract_sr_id args = Except.error ExtractError.argumentNotFound ↔
      ∀ p ∈ args, p.1 ≠ "sr_id") := by
  refine ⟨getByName_eq_none args name, fun v h => getByName_eq_some args name v h, ?_⟩
  rw [← getByName_eq_none args "sr_id"]
  unfold extract_sr_id
  cases hg : getByName args "sr_id" with
  | none => simp
  | some w => cases w <;> simp

/-- C6: the claim states every failure propagates to the caller of the
top-level entry point; a failing first example is caught by main's
catch(console.error), so main's caller observes success and the failure
only reaches the log. -/
theorem C6_counterexample :
    (main_model (Except.error "boom") (Except.ok ())).1 = Except.ok () ∧
    (main_model (Except.error "boom") (Except.ok ())).2 = ["boom"] :=
  ⟨rfl, rfl⟩

/-- C6 (amended): failures propagate as typed failures up to main, where
each example's failure is caught and written to the console log instead of
being re-raised: main's own outcome is always success, the log is empty
exactly when both examples succeed, and each example's failure text
appears in the log. -/
theorem C6_main_logs (r1 r2 : Except String Unit) :
    (main_model r1 r2).1 = Except.ok () ∧
    ((main_model r1 r2).2 = [] ↔ r1 = Except.ok () ∧ r2 = Except.ok ()) ∧
    (∀ e, r1 = Except.error e → e ∈ (main_model r1 r2).2) ∧
    (∀ e, r2 = Except.error e → e ∈ (main_model r1 r2).2) := by
  rcases r1 with e1 | u1 <;> rcases r2 with e2 | u2 <;>
    first
      | exact ⟨rfl, by simp [main_model, catch_and_log], by simp [main_model, catch_and_log],
          by simp [main_model, catch_and_log]⟩

/-- C7: encoding tag value 15 yields the 32-byte array with first byte 15
and 31 trailing zeros, and the native-transfer payload built around it by
send_native_transfer carries the fixed recipient and the amount
4200000000. -/
theorem C7_scenario (pk : String) :
    new_sr_id 15 = CLValue.byteArray (15 :: List.replicate 31 0) ∧
    (send_native_transfer_payload pk (new_sr_id 15)).args =
      [("target", CLValue.publicKey native_recipient_hex),
       ("amount", CLValue.uint512 "4200000000"),
       ("sr_id", CLValue.byteArray (15 :: List.replicate 31 0))] ∧
    native_recipient_hex =
      "0202f5a92ab6da536e7b1a351406f3744224bec85d7acbab1497b65de48a1a707b64" := by
  refine ⟨?_, ?_, rfl⟩ <;> rw [new_sr_id_bytes] <;> rfl

/-- C8: both assembled argument lists have pairwise-distinct names, and
the byte-array arguments they carry are exactly the one correlation tag,
of width exactly 32. -/
theorem C8_args_invariants (v : Int) (pk rcpt amt : String) :
    ((build_native_transfer pk rcpt amt (new_sr_id v)).args.map Prod.fst).Nodup ∧
    ((build_cep18_transfer_args (new_sr_id v)).map Prod.fst).Nodup ∧
    (build_native_transfer pk rcpt amt (new_sr_id v)).args.filterMap byteWidth = [32] ∧
    (build_cep18_transfer_args (new_sr_id v)).filterMap byteWidth = [32] := by
  have hb := new_sr_id_bytes v
  refine ⟨by simp [build_native_transfer], by simp [build_cep18_transfer_args],
    ?_, ?_⟩ <;>
    simp [build_native_transfer, build_cep18_transfer_args, hb, byteWidth,
      List.filterMap_cons]

/-- C9: for every integer input, new_sr_id returns a byte array of length
exactly 32 whose first byte is the input reduced modulo 256 and whose
remaining 31 bytes are zero; out-of-range and negative inputs are wrapped,
not rejected. -/
theorem C9_new_sr_id_shape (v : Int) :
    ∃ bs, new_sr_id v = CLValue.byteArray bs ∧ bs.length = 32 ∧
      bs.head? = some ((v % 256).toNat) ∧ bs.drop 1 = List.replicate 31 0 :=
  ⟨toUint8 v :: List.replicate 31 0, new_sr_id_bytes v, by simp, rfl, rfl⟩

/-- C10: extract_sr_id raises its not-found error exactly when no argument
named sr_id is present; it returns normally exactly when the sr_id
argument is of byte-array kind, in which case the result is that array's
rendering; for a present sr_id argument of any other kind the unguarded
byteArray access is reached. -/
theorem C10_extract_kinds (args : Args) :
    (extract_sr_id args = Except.error ExtractError.argumentNotFound ↔
      ∀ p ∈ args, p.1 ≠ "sr_id") ∧
    (∀ s, extract_sr_id args = Except.ok s →
      ∃ bs, getByName args "sr_id" = some (CLValue.byteArray bs) ∧ s = renderBytes bs) ∧
    (∀ w, getByName args "sr_id" = some w → (∀ bs, w ≠ CLValue.byteArray bs) →
      extract_sr_id args = Except.error ExtractError.typeError) := by
  refine ⟨?_, ?_, ?_⟩
  · rw [← getByName_eq_none args "sr_id"]
    unfold extract_sr_id
    cases hg : getByName args "sr_id" with
    | none => simp
    | some w => cases w <;> simp
  · intro s hs
    unfold extract_sr_id at hs
    cases hg : getByName args "sr_id" with
    | none => rw [hg] at hs; simp at hs
    | some w =>
      rw [hg] at hs
      cases w <;> simp at hs
      case byteArray bs => exact ⟨bs, rfl, hs.symm⟩
  · intro w hw hnb
    unfold extract_sr_id
    rw [hw]
    cases w <;> first
      | rfl
      | exact absurd rfl (hnb _)
